import Mathlib

/-!
Shallow embedding of the behavior-and-locomotion core of the `softies`
simulation (Rust sources under `src/`), with theorems checking the
natural-language specification against it.

Floating-point (`f32`) quantities are modelled as exact rationals `ℚ` where
the code only uses field arithmetic, `max`/`min` and comparisons, and as real
numbers `ℝ` where the code uses `sqrt`/`sin` (vector norms, wave phases).
Rust's `f32::max`/`f32::min` with a constant bound are the usual clamps, so
they embed as `max`/`min` on the ordered field.
-/

namespace Softies

/-- `DietType` from `creature_attributes.rs`. -/
inductive DietType where
  | Herbivore
  | Carnivore
  | Omnivore
deriving DecidableEq, Repr

/-- Modelled from the spec: `CreatureState` — one of
`{Idle, Wandering, Resting, SeekingFood, Fleeing}` (spec §3).  The enum's
defining declaration is not among the staged files (the staged `creature.rs`
is an earlier iteration), but its variant set is fixed by the spec and by the
exhaustive `match` expressions in `plankton.rs` and `snake.rs`. -/
inductive CreatureState where
  | Idle
  | Wandering
  | Resting
  | SeekingFood
  | Fleeing
deriving DecidableEq, Repr

/-- `CreatureAttributes` from `creature_attributes.rs`, generic over the
numeric carrier (`ℚ` for the exact fragments, `ℝ` where the surrounding code
needs transcendental functions).  Tag lists are kept abstract as `List ℕ`;
the claims never inspect tag contents. -/
structure CreatureAttributes (α : Type) where
  energy : α
  max_energy : α
  energy_recovery_rate : α
  satiety : α
  max_satiety : α
  metabolic_rate : α
  diet_type : DietType
  size : α
  prey_tags : List ℕ
  self_tags : List ℕ
deriving DecidableEq

variable {α : Type} [LinearOrderedField α]

/-- `CreatureAttributes::update_passive_stats` (creature_attributes.rs:60-71):
satiety decays by `metabolic_rate * dt` clamped at 0, energy decays by
`metabolic_rate * dt * 0.5` clamped at 0, and if resting energy recovers by
`energy_recovery_rate * dt` capped at `max_energy`.  The two field writes are
sequential, as in the source. -/
def update_passive_stats (a : CreatureAttributes α) (dt : α) (is_resting : Bool) :
    CreatureAttributes α :=
  let a1 := { a with satiety := max (a.satiety - a.metabolic_rate * dt) 0 }
  let a2 := { a1 with energy := max (a1.energy - a1.metabolic_rate * dt * (1/2)) 0 }
  if is_resting then
    { a2 with energy := min (a2.energy + a2.energy_recovery_rate * dt) a2.max_energy }
  else
    a2

/-- `CreatureAttributes::consume_energy` (creature_attributes.rs:73-75). -/
def consume_energy (a : CreatureAttributes α) (amount : α) : CreatureAttributes α :=
  { a with energy := max (a.energy - amount) 0 }

/-- `CreatureAttributes::gain_satiety` (creature_attributes.rs:77-79). -/
def gain_satiety (a : CreatureAttributes α) (amount : α) : CreatureAttributes α :=
  { a with satiety := min (a.satiety + amount) a.max_satiety }

/-- `CreatureAttributes::is_hungry` (creature_attributes.rs:81-83). -/
def is_hungry (a : CreatureAttributes α) : Prop :=
  a.satiety < a.max_satiety * (1/2)

/-- `CreatureAttributes::is_tired` (creature_attributes.rs:85-87). -/
def is_tired (a : CreatureAttributes α) : Prop :=
  a.energy < a.max_energy * (1/5)

instance (a : CreatureAttributes ℚ) : Decidable (is_hungry a) :=
  inferInstanceAs (Decidable (_ < _))

instance (a : CreatureAttributes ℚ) : Decidable (is_tired a) :=
  inferInstanceAs (Decidable (_ < _))

/-- One call of the three attribute-mutating operations the spec's invariant
quantifies over (spec §8: "invariant under any sequence of
`update_passive_stats`, `consume_energy`, `gain_satiety` calls"). -/
inductive StatOp (α : Type) where
  | passive (dt : α) (is_resting : Bool)
  | consume (amount : α)
  | gain (amount : α)

/-- Apply one `StatOp`. -/
def applyStatOp (a : CreatureAttributes α) : StatOp α → CreatureAttributes α
  | .passive dt r => update_passive_stats a dt r
  | .consume amount => consume_energy a amount
  | .gain amount => gain_satiety a amount

/-- Apply a finite sequence of `StatOp`s, first to last. -/
def applyStatOps (a : CreatureAttributes α) (ops : List (StatOp α)) : CreatureAttributes α :=
  ops.foldl applyStatOp a

/-- The spec's attribute invariant (spec §3/§8):
`0 ≤ energy ≤ max_energy ∧ 0 ≤ satiety ≤ max_satiety`. -/
def AttrBounds (a : CreatureAttributes α) : Prop :=
  0 ≤ a.energy ∧ a.energy ≤ a.max_energy ∧ 0 ≤ a.satiety ∧ a.satiety ≤ a.max_satiety

instance (a : CreatureAttributes ℚ) : Decidable (AttrBounds a) :=
  inferInstanceAs (Decidable (_ ∧ _))

/-- A `StatOp` whose numeric argument is non-negative (`dt ≥ 0` for the
passive update, `amount ≥ 0` for consume/gain). -/
def StatOpNonneg : StatOp α → Prop
  | .passive dt _ => 0 ≤ dt
  | .consume amount => 0 ≤ amount
  | .gain amount => 0 ≤ amount

instance : DecidablePred (StatOpNonneg (α := ℚ)) := fun op =>
  match op with
  | .passive _ _ => inferInstanceAs (Decidable (_ ≤ _))
  | .consume _ => inferInstanceAs (Decidable (_ ≤ _))
  | .gain _ => inferInstanceAs (Decidable (_ ≤ _))

/-! ### Plankton state transition and photosynthesis
(`plankton.rs`, `update_state_and_behavior`, lines 571-646).

The boid impulse, random wander impulse and physics-body mutations do not
touch the creature's state or attributes, so the state/energy fragment
embeds as a pure function of the current state, the attributes, the primary
segment's vertical position `y`, the world height `H` and `dt`. -/

/-- The state-transition part of `Plankton::update_state_and_behavior`
(plankton.rs:574-616).  Thresholds from the source:
critically-low `= 0.21 * max_energy`, comfortable `= 0.65 * max_energy`,
light-zone ideal band `= [0.1 * H, 0.45 * H]`. -/
def planktonNextState (st : CreatureState) (a : CreatureAttributes ℚ) (y H : ℚ) :
    CreatureState :=
  let energy_critically_low_threshold := a.max_energy * (21/100)
  let energy_comfortable_threshold := a.max_energy * (65/100)
  let light_zone_ideal_min_y := H * (1/10)
  if is_tired a then CreatureState.Resting
  else
    match st with
    | CreatureState.Resting =>
        if a.energy ≥ energy_comfortable_threshold then CreatureState.Wandering
        else CreatureState.Resting
    | CreatureState.Wandering =>
        if a.energy < energy_critically_low_threshold then CreatureState.SeekingFood
        else CreatureState.Wandering
    | CreatureState.SeekingFood =>
        if a.energy ≥ energy_comfortable_threshold ∧ y ≥ light_zone_ideal_min_y then
          CreatureState.Wandering
        else CreatureState.SeekingFood
    | CreatureState.Idle =>
        if a.energy < energy_critically_low_threshold then CreatureState.SeekingFood
        else CreatureState.Wandering
    | CreatureState.Fleeing =>
        if a.energy < energy_critically_low_threshold then CreatureState.SeekingFood
        else CreatureState.Wandering

/-- The state-and-energy step of `Plankton::update_state_and_behavior`
(plankton.rs:582-646): transition first, then, in the `SeekingFood` behavior
branch, photosynthetic energy gain when the primary segment's `y` lies in
`[0.1*H, 0.45*H]` and energy is below `0.9 * max_energy`; the gain is
`energy_recovery_rate * dt`, capped with `min` at `max_energy`. -/
def planktonStep (st : CreatureState) (a : CreatureAttributes ℚ) (y H dt : ℚ) :
    CreatureState × CreatureAttributes ℚ :=
  let st' := planktonNextState st a y H
  let light_zone_ideal_min_y := H * (1/10)
  let light_zone_ideal_max_y := H * (45/100)
  let energy_cap_for_photosynthesis := a.max_energy * (9/10)
  let a' :=
    if st' = CreatureState.SeekingFood ∧ light_zone_ideal_min_y ≤ y ∧
        y ≤ light_zone_ideal_max_y ∧ a.energy < energy_cap_for_photosynthesis then
      { a with energy := min (a.energy + a.energy_recovery_rate * dt) a.max_energy }
    else a
  (st', a')

/-- Whether `y` lies in the plankton light-zone ideal band `[0.1*H, 0.45*H]`
(plankton.rs:579-580). -/
def inLightZoneBand (y H : ℚ) : Prop :=
  H * (1/10) ≤ y ∧ y ≤ H * (45/100)

instance (y H : ℚ) : Decidable (inLightZoneBand y H) :=
  inferInstanceAs (Decidable (_ ∧ _))

/-- The state-transition part of `Snake::update_state_and_behavior`
(snake.rs:632-670).  `next_state` starts at the current state; tiredness
forces `Resting`; otherwise a resting snake leaves for `Wandering` only past
`0.5 * max_energy` (hungry) or `0.8 * max_energy` (not hungry), and a
non-resting snake defaults to `Wandering`. -/
def snakeNextState (st : CreatureState) (a : CreatureAttributes ℚ) : CreatureState :=
  if is_tired a then CreatureState.Resting
  else if is_hungry a then
    if st = CreatureState.Resting then
      if a.energy > a.max_energy * (1/2) then CreatureState.Wandering else st
    else CreatureState.Wandering
  else
    if st = CreatureState.Resting then
      if a.energy > a.max_energy * (4/5) then CreatureState.Wandering else st
    else CreatureState.Wandering

/-! ### The failsafe pass at the end of `tick_simulation`
(`app.rs`, lines 261-293). -/

/-- One rigid-body segment as the failsafe sees it: position, linear
velocity, angular velocity. -/
structure SegmentState where
  pos : ℚ × ℚ
  linvel : ℚ × ℚ
  angvel : ℚ
deriving DecidableEq

/-- A creature as the failsafe sees it: its ordered segments. -/
structure SimCreature where
  segments : List SegmentState
deriving DecidableEq

/-- `WORLD_WIDTH_METERS / 2.0` (app.rs:12, 262). -/
def world_half_width : ℚ := 10

/-- `WORLD_HEIGHT_METERS / 2.0` (app.rs:13, 263). -/
def world_half_height : ℚ := 8

/-- `bounds_padding` (app.rs:264). -/
def bounds_padding : ℚ := 1

/-- The failsafe's out-of-bounds test for one segment (app.rs:271-272):
`|x| > world_half_width + padding ∨ |y| > world_half_height + padding`. -/
def segmentOutOfBounds (s : SegmentState) : Prop :=
  |s.pos.1| > world_half_width + bounds_padding ∨
  |s.pos.2| > world_half_height + bounds_padding

instance (s : SegmentState) : Decidable (segmentOutOfBounds s) :=
  inferInstanceAs (Decidable (_ ∨ _))

/-- A creature is out of bounds when at least one of its segments is
(app.rs:267-277). -/
def creatureOutOfBounds (c : SimCreature) : Prop :=
  ∃ s ∈ c.segments, segmentOutOfBounds s

instance (c : SimCreature) : Decidable (creatureOutOfBounds c) :=
  inferInstanceAs (Decidable (∃ s ∈ c.segments, segmentOutOfBounds s))

/-- The reset the failsafe applies to each segment of an escaped creature
(app.rs:285-291): translation to the origin, zero linear velocity, zero
angular velocity. -/
def resetSegment : SegmentState :=
  { pos := (0, 0), linvel := (0, 0), angvel := 0 }

/-- The failsafe pass over all creatures (app.rs:266-293).  Each creature is
returned together with a flag recording whether the escaped-creature warning
was logged for it (the `eprintln!` at app.rs:280-284). -/
def failsafePass (cs : List SimCreature) : List (SimCreature × Bool) :=
  cs.map fun c =>
    if creatureOutOfBounds c then
      ({ segments := c.segments.map fun _ => resetSegment }, true)
    else (c, false)

/-- A position lies within the world bounds. -/
def withinWorldBounds (p : ℚ × ℚ) : Prop :=
  |p.1| ≤ world_half_width ∧ |p.2| ≤ world_half_height

instance (p : ℚ × ℚ) : Decidable (withinWorldBounds p) :=
  inferInstanceAs (Decidable (_ ∧ _))

/-! ### Non-finite-value model for the force guards (claim about NaN/∞)

An `f32` is modelled as `Option ℚ`: `some q` is a finite value, `none` is a
non-finite one (NaN or ±∞).  Arithmetic propagates `none` (as NaN propagates
in IEEE-754) and comparisons involving `none` are `false` (as every ordered
comparison with NaN is).  This captures exactly what the guards in
`Snake::apply_anisotropic_drag` and the absence of guards in
`Plankton::apply_buoyancy_and_drag` test: whether a value `is_finite`. -/

/-- A possibly-non-finite `f32`. -/
def FVal : Type := Option ℚ

/-- `f32::is_finite`. -/
def fIsFinite : FVal → Bool
  | some _ => true
  | none => false

/-- Addition, `none`-propagating. -/
def fadd : FVal → FVal → FVal
  | some a, some b => some (a + b)
  | _, _ => none

/-- Subtraction, `none`-propagating. -/
def fsub : FVal → FVal → FVal
  | some a, some b => some (a - b)
  | _, _ => none

/-- Multiplication, `none`-propagating.  (`0 * ∞` and `0 * NaN` are NaN in
IEEE-754, so propagation is exact here.) -/
def fmul : FVal → FVal → FVal
  | some a, some b => some (a * b)
  | _, _ => none

/-- Negation, `none`-propagating. -/
def fneg : FVal → FVal
  | some a => some (-a)
  | none => none

/-- Absolute value, `none`-propagating (|NaN| is NaN; |±∞| is ∞, still
non-finite). -/
def fabs : FVal → FVal
  | some a => some |a|
  | none => none

/-- Strict `<`; `false` whenever either side is non-finite (every IEEE-754
comparison with NaN is false; for ±∞ this is an over-approximation that the
claims never exercise, since they only drive `none` through NaN-like data
flow). -/
def fblt : FVal → FVal → Bool
  | some a, some b => decide (a < b)
  | _, _ => false

/-- `Snake::apply_anisotropic_drag` (snake.rs:483-522), abstracted over one
body.  Inputs: the body's linear velocity (possibly non-finite) and the
cosine/sine of its rotation angle (finite).  Output: the list of forces
actually passed to `add_force` for this body this tick.  The source returns
early when either velocity component is non-finite, clamps both coefficients
at 0, computes quadratic drag along the perpendicular and forward directions,
and applies each of the two forces only if both its components are finite. -/
def snakeDragAppliedForces (linvel : FVal × FVal) (cosA sinA : ℚ)
    (perp_drag_coeff forward_drag_coeff : ℚ) : List (FVal × FVal) :=
  if ¬(fIsFinite linvel.1 = true ∧ fIsFinite linvel.2 = true) then []
  else
    let forward_dir : ℚ × ℚ := (cosA, sinA)
    let right_dir : ℚ × ℚ := (-sinA, cosA)
    let v_forward := fadd (fmul linvel.1 (some forward_dir.1)) (fmul linvel.2 (some forward_dir.2))
    let v_perpendicular := fadd (fmul linvel.1 (some right_dir.1)) (fmul linvel.2 (some right_dir.2))
    let safe_perp_coeff := max perp_drag_coeff 0
    let safe_forward_coeff := max forward_drag_coeff 0
    let drag_force_perp_magnitude := fmul (fmul (some safe_perp_coeff) v_perpendicular) (fabs v_perpendicular)
    let drag_force_forward_magnitude := fmul (fmul (some safe_forward_coeff) v_forward) (fabs v_forward)
    let drag_force_perp := (fmul (fneg drag_force_perp_magnitude) (some right_dir.1),
                            fmul (fneg drag_force_perp_magnitude) (some right_dir.2))
    let drag_force_forward := (fmul (fneg drag_force_forward_magnitude) (some forward_dir.1),
                               fmul (fneg drag_force_forward_magnitude) (some forward_dir.2))
    (if fIsFinite drag_force_perp.1 = true ∧ fIsFinite drag_force_perp.2 = true then
      [drag_force_perp] else []) ++
    (if fIsFinite drag_force_forward.1 = true ∧ fIsFinite drag_force_forward.2 = true then
      [drag_force_forward] else [])

/-- `Plankton::apply_buoyancy_and_drag` (plankton.rs:330-444), the force it
passes to `add_force` for one segment — applied unconditionally, with no
finiteness check anywhere in the function.  Inputs: the behavioral state, the
oscillation term `sin(x * 0.3) * 0.05` already evaluated (a finite value for
finite `x`; the claims only exercise non-finite velocities), the world
height, the segment's vertical position and its linear velocity.  Constants
from the source: base buoyancy 0.002; per-state net-gravity factors 0.02 /
-0.2 / 0.0 (seeking food, below / above / inside the light zone
`[0.05*H, 0.35*H]`), -0.05 (wandering, idle, fleeing), -0.1 (resting, with
half-weight oscillation); vertical damping 0.1, doubled above speed 0.5;
horizontal damping 0.05.  (The adaptive `set_linear_damping` switch at
plankton.rs:434-438 mutates a damping parameter, not a force, and is not part
of this force model.) -/
def planktonAppliedForce (st : CreatureState) (oscillation : ℚ) (H : ℚ)
    (y : FVal) (vel : FVal × FVal) : FVal × FVal :=
  let light_zone_target_min_y := H * (5/100)
  let light_zone_target_max_y := H * (35/100)
  let target_net_accel_y_factor : FVal :=
    match st with
    | CreatureState.SeekingFood =>
        if fblt y (some light_zone_target_min_y) then some (2/100)
        else if fblt (some light_zone_target_max_y) y then some (-(2/10))
        else some 0
    | CreatureState.Wandering => some (-(5/100) + oscillation)
    | CreatureState.Idle => some (-(5/100) + oscillation)
    | CreatureState.Resting => some (-(1/10) + oscillation * (1/2))
    | CreatureState.Fleeing => some (-(5/100) + oscillation)
  let buoyancy_force_y := fmul (some (2/1000)) (fadd (some 1) target_net_accel_y_factor)
  let final_force_y :=
    if fblt (some (1/2)) (fabs vel.2) then
      fsub buoyancy_force_y (fmul vel.2 (some ((1/10) * 2)))
    else
      fsub buoyancy_force_y (fmul vel.2 (some (1/10)))
  let damping_force_x := fneg (fmul vel.1 (some (5/100)))
  (damping_force_x, final_force_y)

/-! ### Snake wiggle actuation (`snake.rs`, `apply_wiggle`, lines 417-479)

Modelled over `ℝ` because the motor targets use `sin`.  The fragment that
touches the snake's own data is: the wiggle timer advances by
`dt * frequency_scale`; if the head segment exists, every joint `i` is
commanded the motor target angular velocity
`sin(wiggle_timer + i * wave_length + id * 0.1) * (0.01 * amplitude_scale) * frequency_scale`,
and `consume_energy(amplitude_scale * frequency_scale * energy_cost_scale * dt)`
is charged.  (The head steering — `set_angvel`, forward `add_force` — mutates
physics bodies only and is outside this state model.) -/

/-- The `Snake` data `apply_wiggle` reads and writes. -/
structure SnakeWiggleState where
  id : ℕ
  wiggle_timer : ℝ
  segment_count : ℕ
  joint_count : ℕ
  attributes : CreatureAttributes ℝ

/-- `Snake::apply_wiggle` (snake.rs:417-479): returns the updated snake
state together with the list of per-joint commanded motor target angular
velocities `v_i` for this tick.  When the snake has no head segment
(`segment_count = 0`) only the timer advances: no motors are commanded and
no energy is consumed. -/
noncomputable def apply_wiggle (s : SnakeWiggleState)
    (dt amplitude_scale frequency_scale energy_cost_scale : ℝ) :
    SnakeWiggleState × List ℝ :=
  let id_based_phase := (s.id : ℝ) * (1/10)
  let t := s.wiggle_timer + dt * frequency_scale
  if s.segment_count = 0 then
    ({ s with wiggle_timer := t }, [])
  else
    let wave_length : ℝ := 1
    let wave_amplitude := (1/100) * amplitude_scale
    let targets := (List.range s.joint_count).map fun i =>
      Real.sin (t + (i : ℝ) * wave_length + id_based_phase) * wave_amplitude * frequency_scale
    let energy_consumed := amplitude_scale * frequency_scale * energy_cost_scale * dt
    ({ s with
        wiggle_timer := t
        attributes := consume_energy s.attributes energy_consumed },
     targets)

/-! ### Plankton boid steering (`plankton.rs`, `calculate_boid_steering_impulse`,
lines 17-68)

Vectors are `ℝ × ℝ`; `nalgebra`'s `norm` is `sqrt (x² + y²)`, `normalize`
divides by the norm, and `try_normalize(eps)` yields the zero vector when the
norm is `≤ eps` (the source unwraps the `None` with `zeros`). -/

/-- `Vector2::norm`. -/
noncomputable def vnorm (v : ℝ × ℝ) : ℝ := Real.sqrt (v.1 ^ 2 + v.2 ^ 2)

/-- `Vector2::norm_squared`. -/
def normSq (v : ℝ × ℝ) : ℝ := v.1 ^ 2 + v.2 ^ 2

/-- `Vector2::normalize`: division by the norm. -/
noncomputable def vnormalize (v : ℝ × ℝ) : ℝ × ℝ := (vnorm v)⁻¹ • v

/-- `Vector2::try_normalize(eps).unwrap_or_else(zeros)`: the zero vector when
the norm is at most `eps`, the normalization otherwise. -/
noncomputable def tryNormalize (eps : ℝ) (v : ℝ × ℝ) : ℝ × ℝ :=
  if vnorm v ≤ eps then 0 else vnormalize v

/-- `BoidNeighborInfo` (plankton.rs:10-14). -/
structure BoidNeighborInfo where
  position : ℝ × ℝ
  velocity : ℝ × ℝ

/-- One neighbor's contribution to the separation accumulator
(plankton.rs:40-44): when its distance `d` to self satisfies
`0 < d < separation_distance`, the normalized away vector divided by `d`;
nothing otherwise. -/
noncomputable def sepContribution (self_position : ℝ × ℝ) (separation_distance : ℝ)
    (n : BoidNeighborInfo) : ℝ × ℝ :=
  let distance := vnorm (n.position - self_position)
  if distance < separation_distance ∧ 0 < distance then
    distance⁻¹ • vnormalize (self_position - n.position)
  else 0

/-- The loop body of `calculate_boid_steering_impulse` (plankton.rs:36-45):
one pass accumulating the cohesion position sum, the alignment velocity sum
and the separation force sum. -/
noncomputable def boidAccumStep (self_position : ℝ × ℝ) (separation_distance : ℝ)
    (acc : (ℝ × ℝ) × (ℝ × ℝ) × (ℝ × ℝ)) (n : BoidNeighborInfo) :
    (ℝ × ℝ) × (ℝ × ℝ) × (ℝ × ℝ) :=
  (acc.1 + n.position, acc.2.1 + n.velocity,
   acc.2.2 + sepContribution self_position separation_distance n)

/-- `calculate_boid_steering_impulse` (plankton.rs:17-68). -/
noncomputable def calculate_boid_steering_impulse (self_position : ℝ × ℝ)
    (neighbors_info : List BoidNeighborInfo) (_perception_radius : ℝ)
    (separation_distance cohesion_strength separation_strength alignment_strength : ℝ) :
    ℝ × ℝ :=
  let local_flockmates_count := neighbors_info.length
  if local_flockmates_count = 0 then 0
  else
    let acc := neighbors_info.foldl (boidAccumStep self_position separation_distance) (0, 0, 0)
    let cohesion_position_accumulator := acc.1
    let alignment_velocity_accumulator := acc.2.1
    let separation_force_accumulator := acc.2.2
    let cohesion_target := ((local_flockmates_count : ℝ))⁻¹ • cohesion_position_accumulator
    let cohesion_force :=
      cohesion_strength • tryNormalize (1/1000000) (cohesion_target - self_position)
    let alignment_target_velocity :=
      ((local_flockmates_count : ℝ))⁻¹ • alignment_velocity_accumulator
    let alignment_force :=
      alignment_strength • tryNormalize (1/1000000) alignment_target_velocity
    let separation_force :=
      if normSq separation_force_accumulator > 0 then
        separation_strength • vnormalize separation_force_accumulator
      else 0
    cohesion_force + alignment_force + separation_force

/-- Separation sum exactly as the specification's words state it (spec §4.4:
"for each neighbor closer than a separation distance, accumulate
`(self − neighbor)/distance`").  Kept separate from the source-derived
`sepContribution` so the two can be compared. -/
noncomputable def sepSumSpec (self_position : ℝ × ℝ) (separation_distance : ℝ)
    (neighbors_info : List BoidNeighborInfo) : ℝ × ℝ :=
  (neighbors_info.map fun n =>
    let d := vnorm (n.position - self_position)
    if 0 < d ∧ d < separation_distance then d⁻¹ • (self_position - n.position)
    else 0).sum

/-- Separation sum as the counterexample forces the claim to be amended:
each in-range neighbor contributes the unit away vector divided by the
distance, i.e. `(self − neighbor)/d²`. -/
noncomputable def sepSumAmended (self_position : ℝ × ℝ) (separation_distance : ℝ)
    (neighbors_info : List BoidNeighborInfo) : ℝ × ℝ :=
  (neighbors_info.map fun n =>
    let d := vnorm (n.position - self_position)
    if 0 < d ∧ d < separation_distance then (d ^ 2)⁻¹ • (self_position - n.position)
    else 0).sum

/-! ### Concrete sample values for witnesses and counterexamples -/

/-- Sample attributes with full satiety (fields: energy, max_energy,
energy_recovery_rate, satiety, max_satiety, metabolic_rate, …). -/
def sampleAttrs : CreatureAttributes ℚ :=
  { energy := 5, max_energy := 10, energy_recovery_rate := 1,
    satiety := 10, max_satiety := 10, metabolic_rate := 1,
    diet_type := DietType.Herbivore, size := 1, prey_tags := [], self_tags := [] }

/-- Plankton-like attributes (`max_energy = 20` as in `Plankton::new`) with a
large recovery rate, used to overshoot the photosynthesis cap. -/
def planktonAttrsLow : CreatureAttributes ℚ :=
  { energy := 12, max_energy := 20, energy_recovery_rate := 1000,
    satiety := 50, max_satiety := 50, metabolic_rate := 1/10,
    diet_type := DietType.Herbivore, size := 1, prey_tags := [], self_tags := [] }

/-- Snake-like attributes over `ℝ` for the wiggle-cost theorems. -/
noncomputable def snakeAttrsR : CreatureAttributes ℝ :=
  { energy := 10, max_energy := 150, energy_recovery_rate := 8,
    satiety := 100, max_satiety := 100, metabolic_rate := 1/2,
    diet_type := DietType.Carnivore, size := 2, prey_tags := [], self_tags := [] }

/-- A two-segment, one-joint snake with id 0 and wiggle timer 0. -/
noncomputable def snakeWiggleSample : SnakeWiggleState :=
  { id := 0, wiggle_timer := 0, segment_count := 2, joint_count := 1,
    attributes := snakeAttrsR }

/-- Sample boid neighbor at `(1, 0)`, at distance 1 from the origin. -/
def boidN1 : BoidNeighborInfo := { position := (1, 0), velocity := (0, 0) }

/-- Sample boid neighbor coinciding with the sample self position `(2, 3)`. -/
def boidCoincident : BoidNeighborInfo := { position := (2, 3), velocity := (0, 0) }

/-- Sample boid neighbor at `(3, 4)`, at distance 5 from the origin. -/
def boidN2 : BoidNeighborInfo := { position := (3, 4), velocity := (0, 0) }

/-- A one-segment creature placed outside the failsafe bounds. -/
def escapedCreature : SimCreature :=
  { segments := [{ pos := (12, 0), linvel := (3, 4), angvel := 5 }] }

/-! ## Theorems -/

/-! ### C1: the attribute bounds invariant -/

/-- The fields other than `energy` and `satiety` are untouched by every
`StatOp`. -/
theorem applyStatOp_frame {α : Type} [LinearOrderedField α]
    (a : CreatureAttributes α) (op : StatOp α) :
    (applyStatOp a op).max_energy = a.max_energy ∧
    (applyStatOp a op).max_satiety = a.max_satiety ∧
    (applyStatOp a op).metabolic_rate = a.metabolic_rate ∧
    (applyStatOp a op).energy_recovery_rate = a.energy_recovery_rate := by
  cases op with
  | passive dt r =>
      simp only [applyStatOp, update_passive_stats]
      split <;> simp
  | consume amount => simp [applyStatOp, consume_energy]
  | gain amount => simp [applyStatOp, gain_satiety]

/-- One non-negative `StatOp` preserves the bounds, given non-negative rate
fields. -/
theorem applyStatOp_bounds {α : Type} [LinearOrderedField α]
    (a : CreatureAttributes α) (op : StatOp α)
    (hb : AttrBounds a) (hm : 0 ≤ a.metabolic_rate) (hr : 0 ≤ a.energy_recovery_rate)
    (hop : StatOpNonneg op) : AttrBounds (applyStatOp a op) := by
  obtain ⟨he0, he1, hs0, hs1⟩ := hb
  have hms : (0:α) ≤ a.max_satiety := le_trans hs0 hs1
  have hme : (0:α) ≤ a.max_energy := le_trans he0 he1
  cases op with
  | passive dt r =>
      have hdt : 0 ≤ dt := hop
      have hmd : 0 ≤ a.metabolic_rate * dt := mul_nonneg hm hdt
      have hrd : 0 ≤ a.energy_recovery_rate * dt := mul_nonneg hr hdt
      simp only [applyStatOp, update_passive_stats]
      split
      · exact ⟨le_min (add_nonneg (le_max_right _ _) hrd) hme,
          min_le_right _ _,
          le_max_right _ _,
          max_le (by linarith) hms⟩
      · exact ⟨le_max_right _ _,
          max_le (by linarith) hme,
          le_max_right _ _,
          max_le (by linarith) hms⟩
  | consume amount =>
      have ha : 0 ≤ amount := hop
      refine ⟨le_max_right _ _, ?_, hs0, hs1⟩
      show max (a.energy - amount) 0 ≤ a.max_energy
      exact max_le (by linarith) hme
  | gain amount =>
      have ha : 0 ≤ amount := hop
      refine ⟨he0, he1, ?_, min_le_right _ _⟩
      show (0:α) ≤ min (a.satiety + amount) a.max_satiety
      exact le_min (by linarith) hms

/-- C1 (amended): for attributes satisfying `0 ≤ energy ≤ max_energy` and
`0 ≤ satiety ≤ max_satiety` with non-negative `metabolic_rate` and
`energy_recovery_rate`, any finite sequence of `update_passive_stats`,
`consume_energy`, `gain_satiety` calls with non-negative `dt`/`amount`
preserves both bounds.  (The claim's unrestricted version — any `dt`,
`amount` and rate fields — is false: see the counterexample, where a single
`update_passive_stats` call with `dt = -1` pushes satiety above
`max_satiety`.) -/
theorem attr_bounds_invariant (a : CreatureAttributes ℚ) (ops : List (StatOp ℚ))
    (hb : AttrBounds a) (hm : 0 ≤ a.metabolic_rate) (hr : 0 ≤ a.energy_recovery_rate)
    (hops : ∀ op ∈ ops, StatOpNonneg op) : AttrBounds (applyStatOps a ops) := by
  induction ops generalizing a with
  | nil => exact hb
  | cons op t ih =>
      have hframe := applyStatOp_frame a op
      refine ih (applyStatOp a op)
        (applyStatOp_bounds a op hb hm hr (hops op (List.mem_cons_self op t)))
        ?_ ?_ (fun o ho => hops o (List.mem_cons_of_mem op ho))
      · rw [hframe.2.2.1]; exact hm
      · rw [hframe.2.2.2]; exact hr

/-- C1 witness: a concrete run of all three operations from a state inside
the bounds stays inside the bounds. -/
theorem attr_bounds_invariant_witness :
    AttrBounds (applyStatOps sampleAttrs
      [StatOp.passive 1 true, StatOp.consume 2, StatOp.gain 3]) :=
  attr_bounds_invariant sampleAttrs _ (by decide) (by decide) (by decide)
    (by decide)

/-- C1 counterexample: the claim as stated — the bounds are preserved with
`dt`, `amount` and the rate fields unrestricted — is false: from a state
satisfying both bounds, one `update_passive_stats` call with `dt = -1`
(metabolic rate 1) raises satiety above `max_satiety`. -/
theorem attr_bounds_counterexample :
    AttrBounds sampleAttrs ∧
    ¬ AttrBounds (update_passive_stats sampleAttrs (-1) false) := by
  constructor
  · exact ⟨by norm_num [sampleAttrs], by norm_num [sampleAttrs],
      by norm_num [sampleAttrs], by norm_num [sampleAttrs]⟩
  · intro h
    have hs := h.2.2.2
    norm_num [sampleAttrs, update_passive_stats, max_def] at hs

/-! ### C2: `update_passive_stats` in closed form -/

/-- C2: `update_passive_stats(dt, is_resting)` sets satiety to
`max (satiety - metabolic_rate * dt) 0`, sets energy to
`max (energy - metabolic_rate * dt * 0.5) 0`, with `energy_recovery_rate * dt`
added to that decayed energy and capped at `max_energy` when resting; no
other field changes (the right-hand side updates only these two fields). -/
theorem update_passive_stats_spec (a : CreatureAttributes ℚ) (dt : ℚ) (is_resting : Bool) :
    update_passive_stats a dt is_resting =
      { a with
        satiety := max (a.satiety - a.metabolic_rate * dt) 0
        energy :=
          if is_resting then
            min (max (a.energy - a.metabolic_rate * dt * (1/2)) 0 +
                 a.energy_recovery_rate * dt) a.max_energy
          else
            max (a.energy - a.metabolic_rate * dt * (1/2)) 0 } := by
  cases is_resting <;> rfl

/-! ### C3: the failsafe pass -/

/-- C3: after the failsafe pass, every creature that had a segment beyond
`world_half_width + 1` / `world_half_height + 1` has all of its segments at
the origin (a position within world bounds) with zero linear and angular
velocity, and the warning was logged for it. -/
theorem failsafe_resets_escaped (cs : List SimCreature) (i : ℕ) (c : SimCreature)
    (hc : cs[i]? = some c) (hout : creatureOutOfBounds c) :
    (failsafePass cs)[i]? =
      some ({ segments := c.segments.map fun _ => resetSegment }, true) ∧
    (∀ s ∈ c.segments.map fun _ => resetSegment,
        s.pos = (0, 0) ∧ s.linvel = (0, 0) ∧ s.angvel = 0) ∧
    withinWorldBounds resetSegment.pos := by
  refine ⟨?_, ?_, ?_⟩
  · rw [failsafePass, List.getElem?_map, hc]
    simp [hout]
  · intro s hs
    rcases List.mem_map.mp hs with ⟨t, _, rfl⟩
    exact ⟨rfl, rfl, rfl⟩
  · exact ⟨by norm_num [resetSegment, world_half_width],
      by norm_num [resetSegment, world_half_height]⟩

/-- C3 witness: a concrete escaped creature (one segment at `x = 12`) is
reset and flagged. -/
theorem failsafe_resets_escaped_witness :
    (failsafePass [escapedCreature])[0]? =
      some ({ segments := escapedCreature.segments.map fun _ => resetSegment }, true) ∧
    (∀ s ∈ escapedCreature.segments.map fun _ => resetSegment,
        s.pos = (0, 0) ∧ s.linvel = (0, 0) ∧ s.angvel = 0) ∧
    withinWorldBounds resetSegment.pos :=
  failsafe_resets_escaped [escapedCreature] 0 escapedCreature rfl
    (by
      refine ⟨{ pos := (12, 0), linvel := (3, 4), angvel := 5 }, ?_, ?_⟩
      · simp [escapedCreature]
      · left
        norm_num [segmentOutOfBounds, world_half_width, bounds_padding])

/-! ### C6: plankton photosynthesis gating and cap -/

/-- C6 (amended): in one `Plankton::update_state_and_behavior` step, energy
strictly increases only when the post-transition state is `SeekingFood` and
the primary segment's `y` lies in the light-zone band (and energy was below
`0.9 * max_energy`); the resulting energy never exceeds `max_energy`.  (The
claim's stronger conclusion — strictly below `max_energy` — is false: the
gain is capped with `min` at full `max_energy`, which the counterexample
reaches.) -/
theorem plankton_photosynthesis_gating (st : CreatureState)
    (a : CreatureAttributes ℚ) (y H dt : ℚ) (hmax : a.energy ≤ a.max_energy) :
    ((planktonStep st a y H dt).2.energy > a.energy →
      (planktonStep st a y H dt).1 = CreatureState.SeekingFood ∧
      inLightZoneBand y H ∧ a.energy < a.max_energy * (9/10)) ∧
    (planktonStep st a y H dt).2.energy ≤ a.max_energy := by
  simp only [planktonStep, inLightZoneBand]
  split
  · next hguard =>
      obtain ⟨hst, hy1, hy2, hcap⟩ := hguard
      exact ⟨fun _ => ⟨hst, ⟨hy1, hy2⟩, hcap⟩, min_le_right _ _⟩
  · exact ⟨fun hgt => absurd hgt (lt_irrefl _), hmax⟩

/-- C6 witness: a concrete gated gain (a seeking-food plankton inside the
band) stays within `max_energy`. -/
theorem plankton_photosynthesis_gating_witness :
    ((planktonStep CreatureState.SeekingFood planktonAttrsLow 2 16 1).2.energy >
        planktonAttrsLow.energy →
      (planktonStep CreatureState.SeekingFood planktonAttrsLow 2 16 1).1 =
        CreatureState.SeekingFood ∧
      inLightZoneBand 2 16 ∧
      planktonAttrsLow.energy < planktonAttrsLow.max_energy * (9/10)) ∧
    (planktonStep CreatureState.SeekingFood planktonAttrsLow 2 16 1).2.energy ≤
      planktonAttrsLow.max_energy :=
  plankton_photosynthesis_gating CreatureState.SeekingFood planktonAttrsLow 2 16 1
    (by norm_num [planktonAttrsLow])

/-- C6 counterexample: with energy 12 of 20 (below the 0.9 cap of 18) and a
large `energy_recovery_rate * dt`, the photosynthesis gain fires in
`SeekingFood` inside the band and the resulting energy equals `max_energy`
exactly — not strictly below it, refuting "capped below full max energy". -/
theorem plankton_photosynthesis_counterexample :
    (planktonStep CreatureState.SeekingFood planktonAttrsLow 2 16 1).1 =
      CreatureState.SeekingFood ∧
    inLightZoneBand 2 16 ∧
    (planktonStep CreatureState.SeekingFood planktonAttrsLow 2 16 1).2.energy >
      planktonAttrsLow.energy ∧
    (planktonStep CreatureState.SeekingFood planktonAttrsLow 2 16 1).2.energy =
      planktonAttrsLow.max_energy := by
  have hstep :
      planktonStep CreatureState.SeekingFood planktonAttrsLow 2 16 1 =
        (CreatureState.SeekingFood,
         { planktonAttrsLow with energy := 20 }) := by
    rw [planktonStep, planktonNextState]
    rw [if_neg (by norm_num [is_tired, planktonAttrsLow])]
    rw [if_neg (by norm_num [planktonAttrsLow])]
    rw [if_pos (by norm_num [planktonAttrsLow])]
    norm_num [planktonAttrsLow, min_def]
  rw [hstep]
  refine ⟨rfl, ?_, ?_, rfl⟩
  · constructor <;> norm_num [inLightZoneBand]
  · norm_num [planktonAttrsLow]

/-! ### C8: resting hysteresis -/

/-- C8: a resting creature below its species' comfort threshold stays in
`Resting` for one transition step — a plankton with energy strictly below
`0.65 * max_energy`, and a snake with energy at most `0.5 * max_energy`
(assuming a non-negative `max_energy`). -/
theorem resting_hysteresis :
    (∀ (a : CreatureAttributes ℚ) (y H : ℚ),
        a.energy < a.max_energy * (65/100) →
        planktonNextState CreatureState.Resting a y H = CreatureState.Resting) ∧
    (∀ a : CreatureAttributes ℚ, 0 ≤ a.max_energy →
        a.energy ≤ a.max_energy * (1/2) →
        snakeNextState CreatureState.Resting a = CreatureState.Resting) := by
  constructor
  · intro a y H h
    simp only [planktonNextState]
    split
    · rfl
    · rw [if_neg]
      intro hge
      exact absurd (lt_of_lt_of_le h (le_of_eq rfl)) (not_lt.mpr hge)
  · intro a hmax h
    simp only [snakeNextState]
    split
    · rfl
    · split <;>
      · rw [if_pos trivial, if_neg]
        intro hgt
        linarith

/-- C8 witness: a resting plankton at 12 of 20 energy (below 13) and a
resting snake at 5 of 10 energy (at the 0.5 threshold) both stay resting. -/
theorem resting_hysteresis_witness :
    planktonNextState CreatureState.Resting planktonAttrsLow 0 16 =
      CreatureState.Resting ∧
    snakeNextState CreatureState.Resting sampleAttrs = CreatureState.Resting :=
  ⟨resting_hysteresis.1 planktonAttrsLow 0 16 (by norm_num [planktonAttrsLow]),
   resting_hysteresis.2 sampleAttrs (by norm_num [sampleAttrs])
     (by norm_num [sampleAttrs])⟩

/-! ### C5: snake wiggle energy cost -/

/-- C5 (amended): the energy `apply_wiggle` subtracts in one tick is
`amplitude_scale * frequency_scale * energy_cost_scale * dt`, charged through
`consume_energy` — a quantity independent of the commanded per-joint motor
target speeds `v_i`.  (The claim's formula `Σ|v_i| · base_cost ·
energy_cost_scale · dt` is false: see the counterexample, where every `v_i`
is zero yet energy is consumed.) -/
theorem wiggle_energy_cost (s : SnakeWiggleState)
    (dt amplitude_scale frequency_scale energy_cost_scale : ℝ)
    (h : s.segment_count ≠ 0) :
    (apply_wiggle s dt amplitude_scale frequency_scale energy_cost_scale).1.attributes =
      consume_energy s.attributes
        (amplitude_scale * frequency_scale * energy_cost_scale * dt) := by
  simp only [apply_wiggle]
  rw [if_neg h]

/-- C5 witness: the two-segment sample snake pays exactly
`1 * 1 * 1 * 1` energy through `consume_energy` in one tick. -/
theorem wiggle_energy_cost_witness :
    (apply_wiggle snakeWiggleSample 1 1 1 1).1.attributes =
      consume_energy snakeWiggleSample.attributes (1 * 1 * 1 * 1) :=
  wiggle_energy_cost snakeWiggleSample 1 1 1 1 (by norm_num [snakeWiggleSample])

/-- C5 counterexample: with `wiggle_timer = 0`, one joint, id 0 and
`dt = π`, the only commanded motor target is `sin π · 0.01 · 1 = 0`, so
`Σ|v_i| · base_cost · energy_cost_scale · dt = 0` for every `base_cost` —
yet the tick consumes `π ≠ 0` energy.  The claimed formula is wrong for
every choice of `base_cost`. -/
theorem wiggle_energy_cost_counterexample :
    ((apply_wiggle snakeWiggleSample Real.pi 1 1 1).2.map (fun v => |v|)).sum = 0 ∧
    snakeWiggleSample.attributes.energy -
      (apply_wiggle snakeWiggleSample Real.pi 1 1 1).1.attributes.energy ≠ 0 := by
  constructor
  · have hr : List.range 1 = [0] := rfl
    simp [apply_wiggle, snakeWiggleSample, hr, Real.sin_pi]
  · have he : (apply_wiggle snakeWiggleSample Real.pi 1 1 1).1.attributes.energy =
        10 - Real.pi := by
      have hpi : (0:ℝ) ≤ 10 - Real.pi := by
        have := Real.pi_le_four
        linarith
      simp only [apply_wiggle, snakeWiggleSample, snakeAttrsR, consume_energy]
      norm_num [max_eq_left hpi]
    rw [he]
    simp only [snakeWiggleSample, snakeAttrsR]
    have := Real.pi_ne_zero
    intro hzero
    apply this
    linarith

/-! ### C9: finiteness guards on applied forces -/

/-- `fsub x none = none`. -/
theorem fsub_none (x : FVal) : fsub x none = none := by
  cases x <;> rfl

/-- `fmul none y = none`. -/
theorem fmul_none_left (y : FVal) : fmul none y = none := rfl

/-- `fabs none = none`. -/
theorem fabs_none : fabs none = none := rfl

/-- `fblt x none = false`. -/
theorem fblt_none_right (x : FVal) : fblt x none = false := by
  cases x <;> rfl

/-- C9 (amended): the snake's anisotropic drag detects a non-finite linear
velocity before computing anything and applies no force for that tick, and
every force it does apply is finite; the plankton's buoyancy/drag, by
contrast, has no finiteness detection at all — with a non-finite vertical
velocity it unconditionally applies a force whose vertical component is
non-finite.  (The claim — that both functions detect and suppress — is
therefore false for the plankton; see the counterexample.) -/
theorem force_finiteness_guards :
    (∀ (linvel : FVal × FVal) (cosA sinA pc fc : ℚ),
        ¬(fIsFinite linvel.1 = true ∧ fIsFinite linvel.2 = true) →
        snakeDragAppliedForces linvel cosA sinA pc fc = []) ∧
    (∀ (linvel : FVal × FVal) (cosA sinA pc fc : ℚ) (f : FVal × FVal),
        f ∈ snakeDragAppliedForces linvel cosA sinA pc fc →
        fIsFinite f.1 = true ∧ fIsFinite f.2 = true) ∧
    (∀ (st : CreatureState) (oscillation H : ℚ) (y : FVal) (vx : FVal),
        (planktonAppliedForce st oscillation H y (vx, none)).2 = none) := by
  refine ⟨?_, ?_, ?_⟩
  · intro linvel cosA sinA pc fc h
    simp only [snakeDragAppliedForces]
    rw [if_pos h]
  · intro linvel cosA sinA pc fc f hf
    simp only [snakeDragAppliedForces] at hf
    by_cases h : ¬(fIsFinite linvel.1 = true ∧ fIsFinite linvel.2 = true)
    · rw [if_pos h] at hf
      simp at hf
    · rw [if_neg h] at hf
      rcases List.mem_append.mp hf with h1 | h1 <;>
        [skip; skip] <;>
        · split at h1
          · next hfin =>
              rcases List.mem_singleton.mp h1 with rfl
              exact hfin
          · simp at h1
  · intro st oscillation H y vx
    cases st <;>
      simp [planktonAppliedForce, fabs_none, fblt_none_right, fmul_none_left,
        fsub_none]

/-- C9 witness: a snake body with a non-finite x-velocity has both drag
forces suppressed for the tick. -/
theorem force_finiteness_guards_witness :
    snakeDragAppliedForces (none, some 0) 1 0 15 5 = [] :=
  force_finiteness_guards.1 (none, some 0) 1 0 15 5 (by decide)

/-- C9 counterexample: a wandering plankton whose vertical velocity is
non-finite (NaN/∞) gets a force with a non-finite vertical component
applied — nothing in `apply_buoyancy_and_drag` detects or suppresses it,
refuting the claim for the plankton side. -/
theorem force_finiteness_counterexample :
    (planktonAppliedForce CreatureState.Wandering 0 16 (some 0)
        (some 0, none)).2 = none ∧
    fIsFinite (planktonAppliedForce CreatureState.Wandering 0 16 (some 0)
        (some 0, none)).2 = false := by
  exact ⟨rfl, rfl⟩

/-! ### Vector lemmas for the boid theorems -/

/-- `vnorm 0 = 0`. -/
theorem vnorm_zero : vnorm (0 : ℝ × ℝ) = 0 := by
  simp [vnorm]

/-- `vnorm` vanishes exactly on the zero vector. -/
theorem vnorm_eq_zero_iff (v : ℝ × ℝ) : vnorm v = 0 ↔ v = 0 := by
  constructor
  · intro h
    have hle : v.1 ^ 2 + v.2 ^ 2 ≤ 0 := Real.sqrt_eq_zero'.mp h
    have h1 : v.1 ^ 2 = 0 :=
      le_antisymm (by nlinarith [sq_nonneg v.2]) (sq_nonneg v.1)
    have h2 : v.2 ^ 2 = 0 :=
      le_antisymm (by nlinarith [sq_nonneg v.1]) (sq_nonneg v.2)
    have e1 : v.1 = 0 := (pow_eq_zero_iff (two_ne_zero)).mp h1
    have e2 : v.2 = 0 := (pow_eq_zero_iff (two_ne_zero)).mp h2
    exact Prod.ext_iff.mpr ⟨e1, e2⟩
  · rintro rfl
    exact vnorm_zero

/-- A nonzero vector has positive norm. -/
theorem vnorm_pos_of_ne {v : ℝ × ℝ} (h : v ≠ 0) : 0 < vnorm v :=
  lt_of_le_of_ne (Real.sqrt_nonneg _)
    (fun heq => h ((vnorm_eq_zero_iff v).mp heq.symm))

/-- The norm of a difference is symmetric. -/
theorem vnorm_sub_comm (a b : ℝ × ℝ) : vnorm (a - b) = vnorm (b - a) := by
  rw [vnorm, vnorm]
  congr 1
  have e1 : (a - b).1 = a.1 - b.1 := rfl
  have e2 : (a - b).2 = a.2 - b.2 := rfl
  have e3 : (b - a).1 = b.1 - a.1 := rfl
  have e4 : (b - a).2 = b.2 - a.2 := rfl
  rw [e1, e2, e3, e4]
  ring

/-- `vnorm` is absolutely homogeneous. -/
theorem vnorm_smul (t : ℝ) (v : ℝ × ℝ) : vnorm (t • v) = |t| * vnorm v := by
  rw [vnorm, vnorm]
  have e1 : (t • v).1 = t * v.1 := rfl
  have e2 : (t • v).2 = t * v.2 := rfl
  rw [e1, e2, show (t * v.1) ^ 2 + (t * v.2) ^ 2 = t ^ 2 * (v.1 ^ 2 + v.2 ^ 2) by ring,
    Real.sqrt_mul (sq_nonneg t), Real.sqrt_sq_eq_abs]

/-- Normalizing a nonzero vector yields a unit vector. -/
theorem vnorm_vnormalize {v : ℝ × ℝ} (h : v ≠ 0) : vnorm (vnormalize v) = 1 := by
  rw [vnormalize, vnorm_smul, abs_inv, abs_of_pos (vnorm_pos_of_ne h)]
  exact inv_mul_cancel₀ (ne_of_gt (vnorm_pos_of_ne h))

/-- Normalization is invariant under positive scaling. -/
theorem vnormalize_smul_pos {t : ℝ} (ht : 0 < t) (v : ℝ × ℝ) :
    vnormalize (t • v) = vnormalize v := by
  rw [vnormalize, vnormalize, vnorm_smul, abs_of_pos ht, smul_smul]
  congr 1
  rw [mul_inv, mul_comm t⁻¹ (vnorm v)⁻¹, mul_assoc,
    inv_mul_cancel₀ (ne_of_gt ht), mul_one]

/-- Two nonzero vectors with the same normalization are parallel (their
cross product vanishes). -/
theorem vnormalize_eq_cross {v w : ℝ × ℝ} (hv : v ≠ 0) (_hw : w ≠ 0)
    (h : vnormalize v = vnormalize w) : v.1 * w.2 = v.2 * w.1 := by
  have hv0 : vnorm v ≠ 0 := ne_of_gt (vnorm_pos_of_ne hv)
  have h1 : (vnorm v)⁻¹ * v.1 = (vnorm w)⁻¹ * w.1 := by
    have := congrArg Prod.fst h
    simpa [vnormalize, Prod.smul_def, smul_eq_mul] using this
  have h2 : (vnorm v)⁻¹ * v.2 = (vnorm w)⁻¹ * w.2 := by
    have := congrArg Prod.snd h
    simpa [vnormalize, Prod.smul_def, smul_eq_mul] using this
  have e1 : v.1 = vnorm v * ((vnorm w)⁻¹ * w.1) := by
    calc v.1 = vnorm v * ((vnorm v)⁻¹ * v.1) := by
          rw [← mul_assoc, mul_inv_cancel₀ hv0, one_mul]
      _ = vnorm v * ((vnorm w)⁻¹ * w.1) := by rw [h1]
  have e2 : v.2 = vnorm v * ((vnorm w)⁻¹ * w.2) := by
    calc v.2 = vnorm v * ((vnorm v)⁻¹ * v.2) := by
          rw [← mul_assoc, mul_inv_cancel₀ hv0, one_mul]
      _ = vnorm v * ((vnorm w)⁻¹ * w.2) := by rw [h2]
  rw [e1, e2]
  ring

/-- `normSq` vanishes exactly on the zero vector. -/
theorem normSq_eq_zero_iff (v : ℝ × ℝ) : normSq v = 0 ↔ v = 0 := by
  rw [normSq]
  constructor
  · intro h
    have h1 : v.1 ^ 2 = 0 :=
      le_antisymm (by nlinarith [sq_nonneg v.2]) (sq_nonneg v.1)
    have h2 : v.2 ^ 2 = 0 :=
      le_antisymm (by nlinarith [sq_nonneg v.1]) (sq_nonneg v.2)
    exact Prod.ext_iff.mpr ⟨(pow_eq_zero_iff two_ne_zero).mp h1,
      (pow_eq_zero_iff two_ne_zero).mp h2⟩
  · rintro rfl
    norm_num

/-- `normSq` is positive exactly on nonzero vectors. -/
theorem normSq_pos_iff (v : ℝ × ℝ) : 0 < normSq v ↔ v ≠ 0 := by
  constructor
  · intro h hv
    rw [(normSq_eq_zero_iff v).mpr hv] at h
    exact lt_irrefl 0 h
  · intro hv
    rcases lt_or_eq_of_le (by positivity : (0:ℝ) ≤ v.1 ^ 2 + v.2 ^ 2) with h | h
    · exact h
    · exact absurd ((normSq_eq_zero_iff v).mp h.symm) hv

/-- Norm of an explicit pair from a square decomposition. -/
theorem vnorm_pair (x y r : ℝ) (hr : 0 ≤ r) (h : x ^ 2 + y ^ 2 = r ^ 2) :
    vnorm (x, y) = r := by
  show Real.sqrt ((x, y).1 ^ 2 + (x, y).2 ^ 2) = r
  rw [show ((x, y) : ℝ × ℝ).1 = x from rfl, show ((x, y) : ℝ × ℝ).2 = y from rfl,
    h, Real.sqrt_sq hr]

/-- The single accumulation loop equals the three per-term sums. -/
theorem boid_foldl_eq (self : ℝ × ℝ) (sd : ℝ) (ns : List BoidNeighborInfo)
    (a b c : ℝ × ℝ) :
    ns.foldl (boidAccumStep self sd) (a, b, c) =
      (a + (ns.map (fun n => n.position)).sum,
       b + (ns.map (fun n => n.velocity)).sum,
       c + (ns.map (sepContribution self sd)).sum) := by
  induction ns generalizing a b c with
  | nil => simp
  | cons n t ih =>
      rw [List.foldl_cons,
        show boidAccumStep self sd (a, b, c) n =
          (a + n.position, b + n.velocity, c + sepContribution self sd n) from rfl,
        ih, List.map_cons, List.map_cons, List.map_cons,
        List.sum_cons, List.sum_cons, List.sum_cons]
      simp [add_assoc]

/-- A neighbor's separation contribution, rewritten as the spec must be
amended: the in-range away vector is `(self − neighbor) / d²`. -/
theorem sepContribution_eq_amended (self : ℝ × ℝ) (sd : ℝ) (n : BoidNeighborInfo) :
    sepContribution self sd n =
      (let d := vnorm (n.position - self)
       if 0 < d ∧ d < sd then (d ^ 2)⁻¹ • (self - n.position) else 0) := by
  rw [sepContribution]
  by_cases h : vnorm (n.position - self) < sd ∧ 0 < vnorm (n.position - self)
  · rw [if_pos h, if_pos ⟨h.2, h.1⟩, vnormalize,
      vnorm_sub_comm self n.position, smul_smul, sq, mul_inv]
  · rw [if_neg h, if_neg (fun hc => h ⟨hc.2, hc.1⟩)]

/-- The mapped separation sum is `sepSumAmended`. -/
theorem sepSum_eq_amended (self : ℝ × ℝ) (sd : ℝ) (ns : List BoidNeighborInfo) :
    (ns.map (sepContribution self sd)).sum = sepSumAmended self sd ns := by
  rw [sepSumAmended]
  congr 1
  exact List.map_congr_left (fun n _ => sepContribution_eq_amended self sd n)

/-- With all three strengths zero the impulse is the zero vector. -/
theorem boid_zero_strengths (self : ℝ × ℝ) (ns : List BoidNeighborInfo)
    (pr sd : ℝ) :
    calculate_boid_steering_impulse self ns pr sd 0 0 0 = 0 := by
  rw [calculate_boid_steering_impulse]
  split
  · rfl
  · simp

/-- The impulse splits into its zero-separation-strength run plus the
separation force computed from `sepSumAmended`. -/
theorem boid_sep_decomposition (self : ℝ × ℝ) (ns : List BoidNeighborInfo)
    (pr sd c ss al : ℝ) :
    calculate_boid_steering_impulse self ns pr sd c ss al =
      calculate_boid_steering_impulse self ns pr sd c 0 al +
      (if sepSumAmended self sd ns = 0 then 0
       else ss • vnormalize (sepSumAmended self sd ns)) := by
  by_cases hlen : ns.length = 0
  · rw [calculate_boid_steering_impulse, calculate_boid_steering_impulse,
      if_pos hlen, if_pos hlen]
    have : ns = [] := List.length_eq_zero.mp hlen
    subst this
    rw [sepSumAmended]
    simp
  · simp only [calculate_boid_steering_impulse, if_neg hlen, boid_foldl_eq,
      zero_add, sepSum_eq_amended]
    rcases eq_or_ne (sepSumAmended self sd ns) 0 with hS | hS
    · rw [hS, if_pos rfl]
      have : ¬ (0 : ℝ) < normSq (0 : ℝ × ℝ) := by
        rw [(normSq_eq_zero_iff (0 : ℝ × ℝ)).mpr rfl]
        exact lt_irrefl 0
      rw [if_neg this, if_neg this]
      abel
    · have hpos : 0 < normSq (sepSumAmended self sd ns) := (normSq_pos_iff _).mpr hS
      rw [if_pos hpos, if_pos hpos, if_neg hS, zero_smul]
      abel

/-- `tryNormalize` of the zero vector falls back to zero. -/
theorem tryNormalize_zero {eps : ℝ} (heps : 0 ≤ eps) :
    tryNormalize eps (0 : ℝ × ℝ) = 0 := by
  rw [tryNormalize, if_pos]
  rw [vnorm_zero]
  exact heps

/-- A neighbor that coincides with the querying position contributes nothing
to the separation accumulator (the `distance > 0` guard). -/
theorem sepContribution_of_coincident (self : ℝ × ℝ) (sd : ℝ)
    (n : BoidNeighborInfo) (h : n.position = self) :
    sepContribution self sd n = 0 := by
  rw [sepContribution, h, sub_self, vnorm_zero,
    if_neg (fun hc => lt_irrefl 0 hc.2)]

/-- A single in-range neighbor, with only separation strength: the impulse is
`ss` times the unit vector away from the neighbor. -/
theorem boid_single_neighbor (self : ℝ × ℝ) (n : BoidNeighborInfo) (pr sd ss : ℝ)
    (h1 : 0 < vnorm (n.position - self)) (h2 : vnorm (n.position - self) < sd) :
    calculate_boid_steering_impulse self [n] pr sd 0 ss 0 =
      ss • vnormalize (self - n.position) := by
  have hsub : self - n.position ≠ 0 := by
    intro h0
    rw [vnorm_sub_comm n.position self, h0, vnorm_zero] at h1
    exact lt_irrefl 0 h1
  rw [boid_sep_decomposition, boid_zero_strengths, zero_add]
  have hAmd : sepSumAmended self sd [n] =
      ((vnorm (n.position - self)) ^ 2)⁻¹ • (self - n.position) := by
    rw [sepSumAmended]
    simp only [List.map_cons, List.map_nil, List.sum_cons, List.sum_nil, add_zero]
    rw [if_pos ⟨h1, h2⟩]
  have hne : sepSumAmended self sd [n] ≠ 0 := by
    rw [hAmd]
    exact smul_ne_zero (inv_ne_zero (pow_ne_zero 2 (ne_of_gt h1))) hsub
  rw [if_neg hne, hAmd,
    vnormalize_smul_pos (inv_pos.mpr (pow_pos h1 2)) (self - n.position)]

/-! ### C4: the separation formula -/

/-- C4 (amended): the impulse decomposes as its zero-separation-strength run
plus the separation component, which is the normalization of the sum over
all neighbors at distance `0 < d < separation_distance` of
`(self − neighbor) / d²` — the unit away vector divided by `d` — scaled by
`separation_strength`, and zero when that sum is zero; with a single
in-range neighbor and only separation strength `ss > 0`, the impulse is `ss`
times the unit vector away from the neighbor, of norm exactly `ss`.  (The
specification's accumulated term `(self − neighbor)/d` is wrong by one
factor of the distance; see the counterexample.) -/
theorem boid_separation_component (self : ℝ × ℝ) (ns : List BoidNeighborInfo)
    (pr sd c ss al : ℝ) (n : BoidNeighborInfo)
    (h1 : 0 < vnorm (n.position - self)) (h2 : vnorm (n.position - self) < sd)
    (hss : 0 < ss) :
    (calculate_boid_steering_impulse self ns pr sd c ss al =
      calculate_boid_steering_impulse self ns pr sd c 0 al +
      (if sepSumAmended self sd ns = 0 then 0
       else ss • vnormalize (sepSumAmended self sd ns))) ∧
    calculate_boid_steering_impulse self [n] pr sd 0 ss 0 =
      ss • ((vnorm (n.position - self))⁻¹ • (self - n.position)) ∧
    vnorm (calculate_boid_steering_impulse self [n] pr sd 0 ss 0) = ss := by
  have hsub : self - n.position ≠ 0 := by
    intro h0
    rw [vnorm_sub_comm n.position self, h0, vnorm_zero] at h1
    exact lt_irrefl 0 h1
  have hsingle := boid_single_neighbor self n pr sd ss h1 h2
  refine ⟨boid_sep_decomposition self ns pr sd c ss al, ?_, ?_⟩
  · rw [hsingle, vnormalize, vnorm_sub_comm self n.position]
  · rw [hsingle, vnorm_smul, vnorm_vnormalize hsub, mul_one, abs_of_pos hss]

/-- Distance of the sample neighbor `boidN1` from the origin. -/
theorem boidN1_dist : vnorm (boidN1.position - ((0:ℝ), (0:ℝ))) = 1 := by
  rw [show boidN1.position - ((0:ℝ), (0:ℝ)) = ((1:ℝ), (0:ℝ)) by
    norm_num [boidN1, Prod.ext_iff]]
  exact vnorm_pair 1 0 1 (by norm_num) (by norm_num)

/-- Distance of the sample neighbor `boidN2` from the origin. -/
theorem boidN2_dist : vnorm (boidN2.position - ((0:ℝ), (0:ℝ))) = 5 := by
  rw [show boidN2.position - ((0:ℝ), (0:ℝ)) = ((3:ℝ), (4:ℝ)) by
    norm_num [boidN2, Prod.ext_iff]]
  exact vnorm_pair 3 4 5 (by norm_num) (by norm_num)

/-- C4 witness: one neighbor at distance 1, separation distance 2, strength
1 — the impulse is the unit away vector with norm 1. -/
theorem boid_separation_component_witness :
    (calculate_boid_steering_impulse ((0:ℝ), (0:ℝ)) [] 10 2 0 1 0 =
      calculate_boid_steering_impulse ((0:ℝ), (0:ℝ)) [] 10 2 0 0 0 +
      (if sepSumAmended ((0:ℝ), (0:ℝ)) 2 [] = 0 then 0
       else (1:ℝ) • vnormalize (sepSumAmended ((0:ℝ), (0:ℝ)) 2 []))) ∧
    calculate_boid_steering_impulse ((0:ℝ), (0:ℝ)) [boidN1] 10 2 0 1 0 =
      (1:ℝ) • ((vnorm (boidN1.position - ((0:ℝ), (0:ℝ))))⁻¹ •
        (((0:ℝ), (0:ℝ)) - boidN1.position)) ∧
    vnorm (calculate_boid_steering_impulse ((0:ℝ), (0:ℝ)) [boidN1] 10 2 0 1 0) = 1 :=
  boid_separation_component ((0:ℝ), (0:ℝ)) [] 10 2 0 1 0 boidN1
    (by rw [boidN1_dist]; norm_num)
    (by rw [boidN1_dist]; norm_num)
    (by norm_num)

/-- C4 counterexample: with neighbors at distances 1 and 5 (both in range)
and only separation strength 1, the impulse computed by the source differs
from the normalization of the spec's sum of `(self − neighbor)/d` — the two
sums are not parallel, so the claim's formula (which here has a nonzero sum,
taking its normalized branch) does not describe the code. -/
theorem boid_separation_spec_counterexample :
    sepSumSpec ((0:ℝ), (0:ℝ)) 6 [boidN1, boidN2] ≠ 0 ∧
    calculate_boid_steering_impulse ((0:ℝ), (0:ℝ)) [boidN1, boidN2] 10 6 0 1 0 ≠
      (1:ℝ) • vnormalize (sepSumSpec ((0:ℝ), (0:ℝ)) 6 [boidN1, boidN2]) := by
  have hspec : sepSumSpec ((0:ℝ), (0:ℝ)) 6 [boidN1, boidN2] =
      (-(8/5 : ℝ), -(4/5 : ℝ)) := by
    rw [sepSumSpec]
    simp only [List.map_cons, List.map_nil, List.sum_cons, List.sum_nil, add_zero,
      boidN1_dist, boidN2_dist]
    rw [if_pos (by norm_num), if_pos (by norm_num)]
    norm_num [boidN1, boidN2, Prod.ext_iff, Prod.smul_mk, Prod.mk_sub_mk,
      Prod.mk_add_mk, smul_eq_mul]
  have hamd : sepSumAmended ((0:ℝ), (0:ℝ)) 6 [boidN1, boidN2] =
      (-(28/25 : ℝ), -(4/25 : ℝ)) := by
    rw [sepSumAmended]
    simp only [List.map_cons, List.map_nil, List.sum_cons, List.sum_nil, add_zero,
      boidN1_dist, boidN2_dist]
    rw [if_pos (by norm_num), if_pos (by norm_num)]
    norm_num [boidN1, boidN2, Prod.ext_iff, Prod.smul_mk, Prod.mk_sub_mk,
      Prod.mk_add_mk, smul_eq_mul]
  have hamdne : ((-(28/25 : ℝ), -(4/25 : ℝ)) : ℝ × ℝ) ≠ 0 := by
    norm_num [Prod.ext_iff]
  have hspecne : ((-(8/5 : ℝ), -(4/5 : ℝ)) : ℝ × ℝ) ≠ 0 := by
    norm_num [Prod.ext_iff]
  have hcalc : calculate_boid_steering_impulse ((0:ℝ), (0:ℝ)) [boidN1, boidN2]
      10 6 0 1 0 = vnormalize (-(28/25 : ℝ), -(4/25 : ℝ)) := by
    rw [boid_sep_decomposition, boid_zero_strengths, zero_add, hamd,
      if_neg hamdne, one_smul]
  constructor
  · rw [hspec]
    exact hspecne
  · rw [hcalc, hspec, one_smul]
    intro heq
    have hcross := vnormalize_eq_cross hamdne hspecne heq
    norm_num at hcross

/-! ### C7: order invariance -/

/-- C7: the boid impulse is invariant under permutations of the neighbor
list — the cohesion, alignment and separation accumulators are sums, and
the flockmate count is the length, all permutation-invariant. -/
theorem boid_impulse_order_invariant (self : ℝ × ℝ) (pr sd c ss al : ℝ)
    (ns1 ns2 : List BoidNeighborInfo) (h : ns1.Perm ns2) :
    calculate_boid_steering_impulse self ns1 pr sd c ss al =
      calculate_boid_steering_impulse self ns2 pr sd c ss al := by
  simp only [calculate_boid_steering_impulse, boid_foldl_eq, zero_add]
  rw [h.length_eq, (h.map fun n => n.position).sum_eq,
    (h.map fun n => n.velocity).sum_eq, (h.map (sepContribution self sd)).sum_eq]

/-- C7 witness: swapping the two sample neighbors (with the plankton's
actual strengths 0.15 / 0.25 / 0.1) gives the same impulse. -/
theorem boid_impulse_order_invariant_witness :
    calculate_boid_steering_impulse ((0:ℝ), (0:ℝ)) [boidN2, boidN1] 10 2
        (15/100) (25/100) (1/10) =
      calculate_boid_steering_impulse ((0:ℝ), (0:ℝ)) [boidN1, boidN2] 10 2
        (15/100) (25/100) (1/10) :=
  boid_impulse_order_invariant ((0:ℝ), (0:ℝ)) 10 2 (15/100) (25/100) (1/10)
    [boidN2, boidN1] [boidN1, boidN2] (List.Perm.swap boidN1 boidN2 [])

/-! ### C10: degenerate inputs are safe -/

/-- C10: a neighbor exactly at the querying position contributes nothing to
the separation accumulator; wherever the code normalizes without a fallback
its argument has nonzero norm (the `0 < distance` guard for the away vector,
the `norm_squared > 0` guard for the accumulator); and when every neighbor
coincides with the querying creature (with zero velocities), every
normalization takes its zero fallback and the impulse is the zero vector —
no division by zero is ever performed on finite inputs. -/
theorem boid_degenerate_inputs_safe :
    (∀ (self : ℝ × ℝ) (sd : ℝ) (n : BoidNeighborInfo), n.position = self →
        sepContribution self sd n = 0) ∧
    (∀ (self : ℝ × ℝ) (sd : ℝ) (n : BoidNeighborInfo),
        0 < vnorm (n.position - self) → vnorm (n.position - self) < sd →
        vnorm (self - n.position) ≠ 0 ∧ vnorm (n.position - self) ≠ 0) ∧
    (∀ v : ℝ × ℝ, 0 < normSq v → vnorm v ≠ 0) ∧
    (∀ (self : ℝ × ℝ) (ns : List BoidNeighborInfo) (pr sd c ss al : ℝ),
        (∀ n ∈ ns, n.position = self ∧ n.velocity = 0) →
        calculate_boid_steering_impulse self ns pr sd c ss al = 0) := by
  refine ⟨sepContribution_of_coincident, ?_, ?_, ?_⟩
  · intro self sd n h1 _h2
    refine ⟨?_, ne_of_gt h1⟩
    rw [vnorm_sub_comm self n.position]
    exact ne_of_gt h1
  · intro v hv
    exact ne_of_gt (vnorm_pos_of_ne ((normSq_pos_iff v).mp hv))
  · intro self ns pr sd c ss al hall
    by_cases hlen : ns.length = 0
    · rw [calculate_boid_steering_impulse, if_pos hlen]
    · simp only [calculate_boid_steering_impulse, if_neg hlen, boid_foldl_eq,
        zero_add]
      have hsum1 : (ns.map fun n => n.position).sum = (ns.length : ℝ) • self := by
        rw [List.sum_eq_card_nsmul (ns.map fun n => n.position) self
          (by intro x hx
              rcases List.mem_map.mp hx with ⟨n, hn, rfl⟩
              exact (hall n hn).1),
          List.length_map, Nat.cast_smul_eq_nsmul]
      have hsum2 : (ns.map fun n => n.velocity).sum = 0 :=
        List.sum_eq_zero (by
          intro x hx
          rcases List.mem_map.mp hx with ⟨n, hn, rfl⟩
          exact (hall n hn).2)
      have hsum3 : (ns.map (sepContribution self sd)).sum = 0 :=
        List.sum_eq_zero (by
          intro x hx
          rcases List.mem_map.mp hx with ⟨n, hn, rfl⟩
          exact sepContribution_of_coincident self sd n (hall n hn).1)
      have htgt : ((ns.length : ℝ))⁻¹ • ((ns.length : ℝ) • self) = self := by
        rw [smul_smul, inv_mul_cancel₀ (Nat.cast_ne_zero.mpr hlen), one_smul]
      have htn : tryNormalize (1/1000000) (0 : ℝ × ℝ) = 0 :=
        tryNormalize_zero (by norm_num)
      have hnsq : ¬ (0:ℝ) < normSq (0 : ℝ × ℝ) := by
        rw [(normSq_eq_zero_iff (0 : ℝ × ℝ)).mpr rfl]
        exact lt_irrefl 0
      rw [hsum1, hsum2, hsum3, htgt, sub_self, smul_zero, htn, if_neg hnsq]
      simp

/-- C10 witness: a lone neighbor exactly at the querying position (zero
velocity) yields the zero impulse. -/
theorem boid_degenerate_inputs_safe_witness :
    calculate_boid_steering_impulse ((2:ℝ), (3:ℝ)) [boidCoincident] 10 2
        (15/100) (25/100) (1/10) = 0 :=
  boid_degenerate_inputs_safe.2.2.2 ((2:ℝ), (3:ℝ)) [boidCoincident] 10 2
    (15/100) (25/100) (1/10)
    (by
      intro n hn
      rcases List.mem_singleton.mp hn with rfl
      exact ⟨rfl, rfl⟩)

end Softies
